import Mathlib

/-!
Verification of the offline cache controller (service worker) of
manga-offline-vault, from src/public/sw.js.

The controller is event-driven JavaScript over the browser Cache API.  The
embedding below turns each event listener into a pure function from the
explicit cache state (the two named stores) and a network oracle to the new
state plus the observable outcome.  Cache stores are association lists keyed
by request URL; a put shadows any earlier entry for the same key, so lookups
always read the newest write, matching the overwrite semantics of the
Cache API.  The network oracle maps a request to `some` response (the fetch
promise resolves) or `none` (the fetch promise rejects).
-/

namespace MangaSW

/-- An HTTP response as the controller observes it: status code, the runtime
response type as a string ("basic", "cors", ...; a synthesized response has
type "default"), body text, and the Content-Type header. -/
structure Response where
  status : Nat
  rtype : String
  body : String
  contentType : String
deriving DecidableEq

/-- An HTTP request as the fetch listener observes it: serialized absolute
URL, method, and destination ("document" for top-level navigations). -/
structure Request where
  url : String
  method : String
  destination : String
deriving DecidableEq

/-- A cache store: association list from request URL to stored response.
Newest entry first; `cacheMatch` reads the first match, so a `cachePut`
overwrites by shadowing. -/
def Cache := List (String × Response)

/-- Look up a URL in one store (Cache API `cache.match`). -/
def cacheMatch (c : List (String × Response)) (url : String) : Option Response :=
  (c.find? (fun e => e.1 == url)).map (fun e => e.2)

/-- Store a response under a URL (Cache API `cache.put`); overwrites by
shadowing, lookups read the newest entry. -/
def cachePut (c : List (String × Response)) (url : String) (r : Response) :
    List (String × Response) :=
  (url, r) :: c

/-- The combined state of the two named stores the controller owns. -/
structure CacheState where
  static : List (String × Response)
  dynamic : List (String × Response)
deriving DecidableEq

/-- `caches.match(request)`: search every store, static first (it is created
first, and stores are searched in creation order). -/
def cachesMatch (st : CacheState) (url : String) : Option Response :=
  match cacheMatch st.static url with
  | some r => some r
  | none => cacheMatch st.dynamic url

/-- JavaScript `s.startsWith(p)`: is `p` a leading substring of `s`?
Modelled on the character lists so that it evaluates by reduction. -/
def strStartsWith (s p : String) : Bool :=
  p.data.isPrefixOf s.data

/-- sw.js line 4: `const CACHE_NAME = 'manga-tracker-v1.0.0'`. -/
def CACHE_NAME : String := "manga-tracker-v1.0.0"

/-- sw.js line 5: `const STATIC_CACHE = 'manga-tracker-static-v1.0.0'`. -/
def STATIC_CACHE : String := "manga-tracker-static-v1.0.0"

/-- sw.js line 6: `const DYNAMIC_CACHE = 'manga-tracker-dynamic-v1.0.0'`. -/
def DYNAMIC_CACHE : String := "manga-tracker-dynamic-v1.0.0"

/-- sw.js lines 9-16: the static precache manifest. -/
def STATIC_FILES : List String :=
  ["/", "/index.html", "/manifest.json",
   "/icons/icon-192x192.png", "/icons/icon-512x512.png"]

/-- `new Request(url)` as built by install and by `cache.addAll`: method GET,
no destination. -/
def getRequest (url : String) : Request :=
  { url := url, method := "GET", destination := "" }

/-- Whether fetching a URL succeeds in the sense `Cache.add`/`Cache.addAll`
require: the fetch promise resolves and the response status is ok
(200-299).  A rejected fetch or a non-ok response makes `addAll` reject. -/
def fetchOk (net : Request → Option Response) (url : String) : Bool :=
  match net (getRequest url) with
  | some r => decide (200 ≤ r.status) && decide (r.status ≤ 299)
  | none => false

/-- `cache.addAll(urls)` per the Cache API: fetch every URL; if any fetch
rejects or any response has a non-ok status, the whole operation rejects and
NOTHING is stored (the batch cache operation is atomic); otherwise every
fetched response is stored under its URL. -/
def cacheAddAll (c : List (String × Response)) (net : Request → Option Response)
    (urls : List String) : Except String (List (String × Response)) :=
  if urls.all (fun u => fetchOk net u) then
    .ok (urls.foldl (fun acc u =>
      match net (getRequest u) with
      | some r => cachePut acc u r
      | none => acc) c)
  else .error "addAll: a request failed"

/-- `cache.addAll` when its rejection is not observed by the caller (the
CACHE_URLS handler attaches no catch): on rejection the store is simply
left unchanged. -/
def cacheAddAllOrKeep (c : List (String × Response)) (net : Request → Option Response)
    (urls : List String) : List (String × Response) :=
  match cacheAddAll c net urls with
  | .ok c2 => c2
  | .error _ => c

/-- sw.js lines 19-37, the install listener: open the static store and
`addAll` the manifest; the attached `.catch` logs and swallows any failure,
so the returned promise always resolves and installation always completes
(`.ok`).  Because `addAll` is atomic, a failed install leaves the static
store unchanged. -/
def handleInstall (st : CacheState) (net : Request → Option Response)
    (manifest : List String) : Except String CacheState :=
  match cacheAddAll st.static net manifest with
  | .ok c2 => .ok { st with static := c2 }
  | .error _ => .ok st

/-- sw.js lines 40-62, the activate listener: of all existing cache names,
delete exactly those passing the filter
`name !== STATIC_CACHE && name !== DYNAMIC_CACHE && name.startsWith('manga-tracker-')`.
Returns the list of deleted names. -/
def handleActivate (cacheNames : List String) : List String :=
  cacheNames.filter (fun n =>
    n != STATIC_CACHE && n != DYNAMIC_CACHE && strStartsWith n "manga-tracker-")

/-- Outcome of the fetch listener for one event: not handled at all
(listener returned before `respondWith`), responded with a response, or
responded with `undefined` (the promise chain resolved with no Response,
as `caches.match('/')` does when `/` is uncached). -/
inductive FetchResult where
  | passthrough : FetchResult
  | responded : Response → FetchResult
  | noResponse : FetchResult
deriving DecidableEq

/-- Everything observable about one fetch event: the response outcome, the
cache state afterwards, and whether `fetch(request)` was issued to the
network. -/
structure FetchOutcome where
  result : FetchResult
  state : CacheState
  networkUsed : Bool
deriving DecidableEq

/-- sw.js lines 108-111: the synthetic offline response.  A response built
by the `Response` constructor has runtime type "default". -/
def offlineResponse : Response :=
  { status := 408, rtype := "default",
    body := "Offline - Please check your connection",
    contentType := "text/plain" }

/-- sw.js lines 65-115, the fetch listener.  Skip non-GET methods and URLs
not starting with "http" (untouched passthrough).  Otherwise: serve a cache
hit from either store with no network use; on a miss fetch from the
network, writing the response to the dynamic store only when its status is
200 and its type is "basic" and returning it either way; if the fetch
rejects, fall back to the cached root document for document destinations
(yielding no response when `/` is uncached) and to the synthetic 408
offline response for everything else. -/
def handleFetch (st : CacheState) (net : Request → Option Response)
    (req : Request) : FetchOutcome :=
  if req.method != "GET" then ⟨.passthrough, st, false⟩
  else if !(strStartsWith req.url "http") then ⟨.passthrough, st, false⟩
  else
    match cachesMatch st req.url with
    | some r => ⟨.responded r, st, false⟩
    | none =>
      match net req with
      | some resp =>
        if resp.status != 200 || resp.rtype != "basic" then
          ⟨.responded resp, st, true⟩
        else
          ⟨.responded resp, { st with dynamic := cachePut st.dynamic req.url resp }, true⟩
      | none =>
        if req.destination == "document" then
          match cachesMatch st "/" with
          | some r => ⟨.responded r, st, true⟩
          | none => ⟨.noResponse, st, true⟩
        else
          ⟨.responded offlineResponse, st, true⟩

/-- The `payload` field of a control message; `urls` is absent or a list. -/
structure MessagePayload where
  urls : Option (List String)
deriving DecidableEq

/-- The `data` field of a control message: optional `type` and `payload`
fields (absent fields are `none`). -/
structure MessageData where
  type : Option String
  payload : Option MessagePayload
deriving DecidableEq

/-- sw.js lines 156-174, the first message listener.  The destructuring
`const \x7b type, payload \x7d = event.data` throws a TypeError when
`event.data` is null or undefined (modelled as `.error`).  Otherwise the
switch: SKIP_WAITING calls skipWaiting (no cache effect); CACHE_URLS, when
a payload with a `urls` field is present, runs `cache.addAll(payload.urls)`
on the dynamic store with no catch attached (state unchanged on rejection);
any other type is only logged. -/
def handleMessage (st : CacheState) (net : Request → Option Response)
    (data : Option MessageData) : Except String CacheState :=
  match data with
  | none => .error "TypeError: cannot destructure event.data"
  | some d =>
    if d.type == some "SKIP_WAITING" then .ok st
    else if d.type == some "CACHE_URLS" then
      match d.payload with
      | some p =>
        match p.urls with
        | some urls => .ok { st with dynamic := cacheAddAllOrKeep st.dynamic net urls }
        | none => .ok st
      | none => .ok st
    else .ok st

/-- The reply posted for GET_VERSION. -/
structure VersionReply where
  version : String
  type : String
deriving DecidableEq

/-- sw.js lines 177-184, the second message listener: guarded by
`event.data && event.data.type === 'GET_VERSION'` (safe on absent data), it
posts `\x7b version: CACHE_NAME, type: 'VERSION_RESPONSE' \x7d` on the
reply channel; for every other message it posts nothing. -/
def handleVersionMessage (data : Option MessageData) : Option VersionReply :=
  match data with
  | none => none
  | some d =>
    if d.type == some "GET_VERSION" then
      some { version := CACHE_NAME, type := "VERSION_RESPONSE" }
    else none

/-- The scheme of a serialized URL: the characters before the first colon. -/
def schemeOf (url : String) : String :=
  String.mk (url.data.takeWhile (fun c => c != ':'))

/-! ## Helper lemmas -/

/-- Looking up the key just put reads the new response. -/
lemma cacheMatch_cachePut (c : List (String × Response)) (u v : String) (r : Response) :
    cacheMatch (cachePut c v r) u = if v == u then some r else cacheMatch c u := by
  simp only [cacheMatch, cachePut, List.find?]
  by_cases h : v = u
  · simp [h]
  · simp [h, beq_eq_false_iff_ne.mpr h]

/-- After the fold that `cacheAddAll` performs on a URL list in which every
fetch is ok, every listed URL (and every URL already present) has an entry. -/
lemma addAll_fold_mem (net : Request → Option Response) :
    ∀ (urls : List String) (c : List (String × Response)) (u : String),
      ((u ∈ urls ∧ fetchOk net u = true) ∨ (∃ r0, cacheMatch c u = some r0)) →
      ∃ r, cacheMatch (urls.foldl (fun acc v =>
        match net (getRequest v) with
        | some rr => cachePut acc v rr
        | none => acc) c) u = some r := by
  intro urls
  induction urls with
  | nil =>
    intro c u h
    rcases h with ⟨hmem, _⟩ | ⟨r0, hr0⟩
    · exact absurd hmem (List.not_mem_nil u)
    · exact ⟨r0, hr0⟩
  | cons v rest ih =>
    intro c u h
    rw [List.foldl_cons]
    rcases h with ⟨hmem, hok⟩ | ⟨r0, hr0⟩
    · rcases List.mem_cons.mp hmem with heq | hrest
      · subst heq
        have hnet : ∃ rr, net (getRequest u) = some rr := by
          unfold fetchOk at hok
          cases hn : net (getRequest u) with
          | none => rw [hn] at hok; simp at hok
          | some rr => exact ⟨rr, rfl⟩
        rcases hnet with ⟨rr, hrr⟩
        apply ih
        right
        refine ⟨rr, ?_⟩
        rw [hrr, cacheMatch_cachePut]
        simp
      · exact ih _ _ (Or.inl ⟨hrest, hok⟩)
    · apply ih
      right
      cases hn : net (getRequest v) with
      | none => exact ⟨r0, hr0⟩
      | some rr =>
        rw [cacheMatch_cachePut]
        by_cases hvu : v = u
        · exact ⟨rr, by simp [hvu]⟩
        · exact ⟨r0, by simp [beq_eq_false_iff_ne.mpr hvu, hr0]⟩

/-! ## Claims -/

/-- Claim C1 (confirmed).  Cache-first: for every intercepted request (GET
method, URL starting with "http", as every HTTP or HTTPS URL does) whose URL
has a matching entry in either store, the fetch listener responds with that
cached response, leaves both stores unchanged, and issues no network
request at all. -/
theorem C1_cache_first (st : CacheState) (net : Request → Option Response)
    (req : Request) (r : Response)
    (hm : req.method = "GET") (hu : strStartsWith req.url "http" = true)
    (hc : cachesMatch st req.url = some r) :
    handleFetch st net req = ⟨.responded r, st, false⟩ := by
  simp [handleFetch, hm, hu, hc]

/-- Witness for C1 at a concrete cached request. -/
theorem C1_cache_first_witness :
    handleFetch ⟨[("http://a/", ⟨200, "basic", "hello", "text/html"⟩)], []⟩
      (fun _ => none) ⟨"http://a/", "GET", "document"⟩
      = ⟨.responded ⟨200, "basic", "hello", "text/html"⟩,
         ⟨[("http://a/", ⟨200, "basic", "hello", "text/html"⟩)], []⟩, false⟩ :=
  C1_cache_first _ _ _ _ rfl rfl rfl

/-- Claim C2 counterexample.  The claim extends the 200-and-basic admission
invariant to every handler that writes caches, but the CACHE_URLS message
handler stores via `cache.addAll`, which admits any ok-status (2xx)
response: with a network returning a status-204 basic response, the message
handler writes that response into the dynamic store even though its status
is not 200. -/
theorem C2_admission_counterexample :
    handleMessage ⟨[], []⟩ (fun _ => some ⟨204, "basic", "", ""⟩)
      (some ⟨some "CACHE_URLS", some ⟨some ["http://a/x"]⟩⟩)
      = .ok ⟨[], [("http://a/x", ⟨204, "basic", "", ""⟩)]⟩
    ∧ (Response.mk 204 "basic" "" "").status ≠ 200 := by
  exact ⟨rfl, by decide⟩

/-- Claim C2 (corrected).  Amended: the FETCH listener admits a response to
the dynamic store only when the request is GET with an http-leading URL and
the response has status 200 and type "basic"; it returns every non-200 or
non-basic response unmodified with both stores unchanged, and on a 200
basic response it changes only the dynamic store, by putting that response
under the request URL.  (The CACHE_URLS handler, by contrast, admits any
ok-status response — see the counterexample.) -/
theorem C2_fetch_admission (st : CacheState) (net : Request → Option Response)
    (req : Request) (resp : Response)
    (hm : req.method = "GET") (hu : strStartsWith req.url "http" = true)
    (hc : cachesMatch st req.url = none) (hn : net req = some resp) :
    (resp.status ≠ 200 ∨ resp.rtype ≠ "basic" →
      handleFetch st net req = ⟨.responded resp, st, true⟩)
    ∧ (resp.status = 200 → resp.rtype = "basic" →
      handleFetch st net req
        = ⟨.responded resp, ⟨st.static, cachePut st.dynamic req.url resp⟩, true⟩) := by
  constructor
  · intro hbad
    have : (resp.status != 200 || resp.rtype != "basic") = true := by
      rcases hbad with h | h <;> simp [h]
    simp [handleFetch, hm, hu, hc, hn, this]
  · intro h1 h2
    simp [handleFetch, hm, hu, hc, hn, h1, h2]

/-- Witness for C2 at concrete requests: a 404 response is returned
unmodified without caching, and a 200 basic response is cached. -/
theorem C2_fetch_admission_witness :
    (handleFetch ⟨[], []⟩ (fun _ => some ⟨404, "basic", "nf", "text/plain"⟩)
       ⟨"http://a/x", "GET", ""⟩
       = ⟨.responded ⟨404, "basic", "nf", "text/plain"⟩, ⟨[], []⟩, true⟩)
    ∧ (handleFetch ⟨[], []⟩ (fun _ => some ⟨200, "basic", "ok", "text/plain"⟩)
       ⟨"http://a/y", "GET", ""⟩
       = ⟨.responded ⟨200, "basic", "ok", "text/plain"⟩,
          ⟨[], [("http://a/y", ⟨200, "basic", "ok", "text/plain"⟩)]⟩, true⟩) :=
  ⟨(C2_fetch_admission ⟨[], []⟩ (fun _ => some ⟨404, "basic", "nf", "text/plain"⟩)
      ⟨"http://a/x", "GET", ""⟩ ⟨404, "basic", "nf", "text/plain"⟩
      rfl rfl rfl rfl).1 (Or.inl (by decide)),
   (C2_fetch_admission ⟨[], []⟩ (fun _ => some ⟨200, "basic", "ok", "text/plain"⟩)
      ⟨"http://a/y", "GET", ""⟩ ⟨200, "basic", "ok", "text/plain"⟩
      rfl rfl rfl rfl).2 rfl rfl⟩

/-- Claim C3 (confirmed).  Offline fallback: for an intercepted GET request
with http-leading URL that misses both stores and whose network fetch
rejects — if the destination is "document" and the static store holds a
response at "/", the listener responds with that cached root response; for
any non-document destination it responds with the synthetic offline
response, which has status 408 and Content-Type text/plain.  Both stores
are unchanged either way. -/
theorem C3_offline_fallback (st : CacheState) (net : Request → Option Response)
    (req : Request) (r : Response)
    (hm : req.method = "GET") (hu : strStartsWith req.url "http" = true)
    (hc : cachesMatch st req.url = none) (hn : net req = none) :
    (req.destination = "document" → cacheMatch st.static "/" = some r →
      handleFetch st net req = ⟨.responded r, st, true⟩)
    ∧ (req.destination ≠ "document" →
      handleFetch st net req = ⟨.responded offlineResponse, st, true⟩
        ∧ offlineResponse.status = 408 ∧ offlineResponse.contentType = "text/plain") := by
  constructor
  · intro hd hr
    have hroot : cachesMatch st "/" = some r := by
      simp [cachesMatch, hr]
    simp [handleFetch, hm, hu, hc, hn, hd, hroot]
  · intro hd
    refine ⟨?_, rfl, rfl⟩
    have : (req.destination == "document") = false := beq_eq_false_iff_ne.mpr hd
    simp [handleFetch, hm, hu, hc, hn, this]

/-- Witness for C3: a failed document navigation is answered with the
cached root shell, and a failed image request with the 408 offline
response. -/
theorem C3_offline_fallback_witness :
    (handleFetch ⟨[("/", ⟨200, "basic", "shell", "text/html"⟩)], []⟩ (fun _ => none)
       ⟨"http://a/page", "GET", "document"⟩
       = ⟨.responded ⟨200, "basic", "shell", "text/html"⟩,
          ⟨[("/", ⟨200, "basic", "shell", "text/html"⟩)], []⟩, true⟩)
    ∧ (handleFetch ⟨[], []⟩ (fun _ => none) ⟨"http://a/img.png", "GET", "image"⟩
       = ⟨.responded offlineResponse, ⟨[], []⟩, true⟩
       ∧ offlineResponse.status = 408 ∧ offlineResponse.contentType = "text/plain") :=
  ⟨(C3_offline_fallback ⟨[("/", ⟨200, "basic", "shell", "text/html"⟩)], []⟩
      (fun _ => none) ⟨"http://a/page", "GET", "document"⟩
      ⟨200, "basic", "shell", "text/html"⟩ rfl rfl rfl rfl).1 rfl rfl,
   (C3_offline_fallback ⟨[], []⟩ (fun _ => none) ⟨"http://a/img.png", "GET", "image"⟩
      offlineResponse rfl rfl rfl rfl).2 (by decide)⟩

/-- Claim C4 (confirmed).  Version isolation on activation: a cache name is
deleted by the activate listener exactly when it is among the existing
names, starts with "manga-tracker-", and equals neither the current static
store name nor the current dynamic store name; every name outside the
namespace, and the two current stores, survive. -/
theorem C4_activate_isolation (cacheNames : List String) (n : String) :
    n ∈ handleActivate cacheNames ↔
      n ∈ cacheNames ∧ strStartsWith n "manga-tracker-" = true
        ∧ n ≠ STATIC_CACHE ∧ n ≠ DYNAMIC_CACHE := by
  simp only [handleActivate, List.mem_filter, Bool.and_eq_true, bne_iff_ne]
  tauto

/-- Claim C5 counterexample.  Install with manifest ["/", "/a.png"] where
"/a.png" fails to fetch: installation completes (`.ok`), but the static
store ends up EMPTY — "/" is not stored either, because `cache.addAll` is
atomic and stores nothing when any of its requests fails.  The claim said
the store would contain exactly the successfully fetched URLs. -/
theorem C5_install_counterexample :
    handleInstall ⟨[], []⟩
      (fun r => if r.url == "/" then some ⟨200, "basic", "shell", "text/html"⟩ else none)
      ["/", "/a.png"]
      = .ok ⟨[], []⟩
    ∧ cacheMatch ([] : List (String × Response)) "/" = none := by
  exact ⟨rfl, rfl⟩

/-- Claim C5 (corrected).  Amended: if any manifest URL fails to fetch
(rejects, or resolves with a non-ok status), installation still completes —
the install listener catches and swallows the failure — but the static
store is left entirely unchanged: `cache.addAll` is atomic, so no manifest
URL is added, not even the ones that fetched successfully. -/
theorem C5_install_failure_nonfatal (st : CacheState)
    (net : Request → Option Response) (manifest : List String)
    (u : String) (hu : u ∈ manifest) (hf : fetchOk net u = false) :
    handleInstall st net manifest = .ok st := by
  have hall : manifest.all (fun v => fetchOk net v) = false := by
    rw [Bool.eq_false_iff]
    intro hT
    have := List.all_eq_true.mp hT u hu
    rw [hf] at this
    exact Bool.false_ne_true this
  simp [handleInstall, cacheAddAll, hall]

/-- Witness for C5 at the concrete scenario of the claim. -/
theorem C5_install_failure_nonfatal_witness :
    handleInstall ⟨[("/old", ⟨200, "basic", "o", "text/html"⟩)], []⟩
      (fun r => if r.url == "/" then some ⟨200, "basic", "shell", "text/html"⟩ else none)
      ["/", "/a.png"]
      = .ok ⟨[("/old", ⟨200, "basic", "o", "text/html"⟩)], []⟩ :=
  C5_install_failure_nonfatal ⟨[("/old", ⟨200, "basic", "o", "text/html"⟩)], []⟩
    (fun r => if r.url == "/" then some ⟨200, "basic", "shell", "text/html"⟩ else none)
    ["/", "/a.png"] "/a.png" (by decide) rfl

/-- Claim C6 counterexample.  A document navigation that misses both stores
and fails at the network, while "/" is absent from both stores, makes the
promise chain resolve with the undefined value that `caches.match('/')`
yields — the listener responds with NO response (neither a real response,
nor a cached shell, nor the 408 offline response), contradicting the
claimed totality. -/
theorem C6_totality_counterexample :
    handleFetch ⟨[], []⟩ (fun _ => none) ⟨"https://a/page", "GET", "document"⟩
      = ⟨.noResponse, ⟨[], []⟩, true⟩ := by
  rfl

/-- Claim C6 (corrected).  Amended: for every intercepted request (GET,
http-leading URL) the fetch listener responds with some response — cached,
network, cached shell, or the 408 offline response — EXCEPT in exactly one
case: a document-destination request that misses both stores, fails at the
network, and finds "/" in neither store, where the listener yields no
response. -/
theorem C6_totality (st : CacheState) (net : Request → Option Response)
    (req : Request)
    (hm : req.method = "GET") (hu : strStartsWith req.url "http" = true) :
    (∃ r, (handleFetch st net req).result = .responded r)
    ∨ ((handleFetch st net req).result = .noResponse
        ∧ cachesMatch st req.url = none ∧ net req = none
        ∧ req.destination = "document" ∧ cachesMatch st "/" = none) := by
  cases hc : cachesMatch st req.url with
  | some r =>
    left
    exact ⟨r, by simp [handleFetch, hm, hu, hc]⟩
  | none =>
    cases hn : net req with
    | some resp =>
      left
      refine ⟨resp, ?_⟩
      by_cases hb : (resp.status != 200 || resp.rtype != "basic") = true
      · simp [handleFetch, hm, hu, hc, hn, hb]
      · simp [handleFetch, hm, hu, hc, hn, hb]
    | none =>
      by_cases hd : req.destination = "document"
      · cases hroot : cachesMatch st "/" with
        | some r =>
          left
          exact ⟨r, by simp [handleFetch, hm, hu, hc, hn, hd, hroot]⟩
        | none =>
          right
          exact ⟨by simp [handleFetch, hm, hu, hc, hn, hd, hroot], rfl, rfl, hd, rfl⟩
      · left
        refine ⟨offlineResponse, ?_⟩
        have hbe : (req.destination == "document") = false := beq_eq_false_iff_ne.mpr hd
        simp [handleFetch, hm, hu, hc, hn, hbe]

/-- Witness for C6 at a concrete uncached request that succeeds on the
network. -/
theorem C6_totality_witness :
    (∃ r, (handleFetch ⟨[], []⟩ (fun _ => some ⟨200, "basic", "ok", "text/html"⟩)
        ⟨"http://a/", "GET", ""⟩).result = .responded r)
    ∨ ((handleFetch ⟨[], []⟩ (fun _ => some ⟨200, "basic", "ok", "text/html"⟩)
          ⟨"http://a/", "GET", ""⟩).result = .noResponse
        ∧ cachesMatch ⟨[], []⟩ "http://a/" = none
        ∧ (fun (_ : Request) => some (Response.mk 200 "basic" "ok" "text/html"))
            ⟨"http://a/", "GET", ""⟩ = none
        ∧ ("" : String) = "document" ∧ cachesMatch ⟨[], []⟩ "/" = none) :=
  C6_totality ⟨[], []⟩ (fun _ => some ⟨200, "basic", "ok", "text/html"⟩)
    ⟨"http://a/", "GET", ""⟩ rfl rfl

/-- Claim C7 counterexample.  A GET_VERSION message is answered with
version CACHE_NAME = "manga-tracker-v1.0.0", which is NOT the name of the
currently active static store (STATIC_CACHE = "manga-tracker-static-v1.0.0"):
the claim said the version field equals the static store name. -/
theorem C7_version_counterexample :
    handleVersionMessage (some ⟨some "GET_VERSION", none⟩)
      = some ⟨"manga-tracker-v1.0.0", "VERSION_RESPONSE"⟩
    ∧ "manga-tracker-v1.0.0" ≠ STATIC_CACHE := by
  exact ⟨rfl, by decide⟩

/-- Claim C7 (corrected).  Amended: for every message whose data carries
type GET_VERSION, the version listener replies on the reply channel with
type "VERSION_RESPONSE" and version equal to CACHE_NAME, the controller's
base cache-name constant "manga-tracker-v1.0.0" — which differs from the
static store name. -/
theorem C7_version_reply (d : MessageData) (h : d.type = some "GET_VERSION") :
    handleVersionMessage (some d) = some ⟨CACHE_NAME, "VERSION_RESPONSE"⟩ := by
  simp [handleVersionMessage, h]

/-- Witness for C7 at a concrete GET_VERSION message. -/
theorem C7_version_reply_witness :
    handleVersionMessage (some ⟨some "GET_VERSION", none⟩)
      = some ⟨CACHE_NAME, "VERSION_RESPONSE"⟩ :=
  C7_version_reply ⟨some "GET_VERSION", none⟩ rfl

/-- Claim C8 counterexample.  The scheme test in the fetch listener is the
string-prefix check `request.url.startsWith('http')`, not a scheme check: a
GET request to "httpx://a" — whose scheme "httpx" is neither "http" nor
"https" — is still intercepted, and here its network response is even
written into the dynamic store, so the stores are NOT left unchanged as the
claim states. -/
theorem C8_scheme_counterexample :
    schemeOf "httpx://a" ≠ "http" ∧ schemeOf "httpx://a" ≠ "https"
    ∧ handleFetch ⟨[], []⟩ (fun _ => some ⟨200, "basic", "b", "text/plain"⟩)
        ⟨"httpx://a", "GET", ""⟩
      = ⟨.responded ⟨200, "basic", "b", "text/plain"⟩,
         ⟨[], [("httpx://a", ⟨200, "basic", "b", "text/plain"⟩)]⟩, true⟩ := by
  exact ⟨by decide, by decide, rfl⟩

/-- Claim C8 (corrected).  Amended: every request whose method is not GET,
and every request whose URL does not start with the string "http", passes
through untouched — no lookup, no write, no network use, both stores
unchanged.  (The check is a string-prefix test, so a non-HTTP(S) scheme
that merely begins with "http", such as "httpx", is still intercepted —
see the counterexample.) -/
theorem C8_passthrough (st : CacheState) (net : Request → Option Response)
    (req : Request)
    (h : req.method ≠ "GET" ∨ strStartsWith req.url "http" = false) :
    handleFetch st net req = ⟨.passthrough, st, false⟩ := by
  by_cases hm : req.method = "GET"
  · rcases h with h | h
    · exact absurd hm h
    · simp [handleFetch, hm, h]
  · have : (req.method != "GET") = true := bne_iff_ne.mpr hm
    simp [handleFetch, this]

/-- Witness for C8 at a concrete POST request. -/
theorem C8_passthrough_witness :
    handleFetch ⟨[], []⟩ (fun _ => none) ⟨"http://a/", "POST", ""⟩
      = ⟨.passthrough, ⟨[], []⟩, false⟩ :=
  C8_passthrough ⟨[], []⟩ (fun _ => none) ⟨"http://a/", "POST", ""⟩
    (Or.inl (by decide))

/-- Claim C9 counterexample.  A message whose data is absent (null or
undefined) makes the first message listener THROW a TypeError: the
destructuring `const \x7b type, payload \x7d = event.data` fails before the
switch is reached, contradicting the claim that the handler never raises an
error on absent data. -/
theorem C9_absent_data_counterexample :
    handleMessage ⟨[], []⟩ (fun _ => none) none
      = .error "TypeError: cannot destructure event.data" := by
  rfl

/-- Claim C9 (corrected).  Amended: a message whose data object is PRESENT
but of unrecognized type is harmless — the switch falls to its default,
which only logs, and the version listener posts nothing, so neither
listener raises an error or modifies any cache store; but a message with
absent data makes the first listener throw a TypeError during
destructuring. -/
theorem C9_unknown_type_ignored (st : CacheState)
    (net : Request → Option Response) (d : MessageData)
    (h1 : d.type ≠ some "SKIP_WAITING") (h2 : d.type ≠ some "CACHE_URLS")
    (h3 : d.type ≠ some "GET_VERSION") :
    handleMessage st net (some d) = .ok st
    ∧ handleVersionMessage (some d) = none := by
  constructor
  · have b1 : (d.type == some "SKIP_WAITING") = false := beq_eq_false_iff_ne.mpr h1
    have b2 : (d.type == some "CACHE_URLS") = false := beq_eq_false_iff_ne.mpr h2
    simp [handleMessage, b1, b2]
  · have b3 : (d.type == some "GET_VERSION") = false := beq_eq_false_iff_ne.mpr h3
    simp [handleVersionMessage, b3]

/-- Witness for C9 at a concrete unknown-type message. -/
theorem C9_unknown_type_ignored_witness :
    handleMessage ⟨[], []⟩ (fun _ => none) (some ⟨some "NOPE", none⟩) = .ok ⟨[], []⟩
    ∧ handleVersionMessage (some ⟨some "NOPE", none⟩) = none :=
  C9_unknown_type_ignored ⟨[], []⟩ (fun _ => none) ⟨some "NOPE", none⟩
    (by decide) (by decide) (by decide)

/-- Claim C10 (confirmed).  CACHE_URLS prefetch is all-or-nothing: the
handler completes without error, never touches the static store, and either
every listed URL fetched ok (resolved with an ok status, as `Cache.addAll`
requires) and every listed URL has an entry in the resulting dynamic store,
or some listed URL failed and the dynamic store is exactly unchanged — a
per-URL partial result never occurs. -/
theorem C10_cache_urls_atomic (st : CacheState)
    (net : Request → Option Response) (urls : List String) (_hne : urls ≠ []) :
    ∃ st2, handleMessage st net (some ⟨some "CACHE_URLS", some ⟨some urls⟩⟩) = .ok st2
      ∧ st2.static = st.static
      ∧ (((∀ u ∈ urls, fetchOk net u = true)
            ∧ ∀ u ∈ urls, ∃ r, cacheMatch st2.dynamic u = some r)
         ∨ ((∃ u ∈ urls, fetchOk net u = false) ∧ st2.dynamic = st.dynamic)) := by
  refine ⟨{ st with dynamic := cacheAddAllOrKeep st.dynamic net urls }, by rfl, rfl, ?_⟩
  cases hall : urls.all (fun u => fetchOk net u) with
  | true =>
    left
    have hok : ∀ u ∈ urls, fetchOk net u = true := List.all_eq_true.mp hall
    refine ⟨hok, fun u hu => ?_⟩
    have hfold := addAll_fold_mem net urls st.dynamic u (Or.inl ⟨hu, hok u hu⟩)
    simpa [cacheAddAllOrKeep, cacheAddAll, hall] using hfold
  | false =>
    right
    constructor
    · by_contra hno
      push_neg at hno
      have : urls.all (fun u => fetchOk net u) = true := by
        rw [List.all_eq_true]
        intro u hu
        have := hno u hu
        exact eq_true_of_ne_false this
      rw [hall] at this
      exact Bool.false_ne_true this
    · simp [cacheAddAllOrKeep, cacheAddAll, hall]

/-- Witness for C10 at a concrete two-URL prefetch that succeeds. -/
theorem C10_cache_urls_atomic_witness :
    ∃ st2, handleMessage ⟨[], []⟩ (fun _ => some ⟨200, "basic", "p", "text/plain"⟩)
        (some ⟨some "CACHE_URLS", some ⟨some ["http://a/1", "http://a/2"]⟩⟩) = .ok st2
      ∧ st2.static = CacheState.static ⟨[], []⟩
      ∧ (((∀ u ∈ ["http://a/1", "http://a/2"],
              fetchOk (fun _ => some ⟨200, "basic", "p", "text/plain"⟩) u = true)
            ∧ ∀ u ∈ ["http://a/1", "http://a/2"], ∃ r, cacheMatch st2.dynamic u = some r)
         ∨ ((∃ u ∈ ["http://a/1", "http://a/2"],
              fetchOk (fun _ => some ⟨200, "basic", "p", "text/plain"⟩) u = false)
            ∧ st2.dynamic = CacheState.dynamic ⟨[], []⟩)) :=
  C10_cache_urls_atomic ⟨[], []⟩ (fun _ => some ⟨200, "basic", "p", "text/plain"⟩)
    ["http://a/1", "http://a/2"] (by decide)

end MangaSW
